import Mathlib

/-!
Verification of the libev-based scheduler in `lib/Scheduler/SchedulerLibev.cpp`
(ArangoDB).  The C++ operations are shallowly embedded as pure Lean functions
over an explicit scheduler state.  OS-level effects (libev `ev_*_start`,
`ev_*_stop`, `ev_async_send`, `free`) are recorded in an explicit trace so
that registration/deregistration balance can be stated.  Task callbacks are
modelled by their observable invocations (`handleEvent` calls).

Conventions:
* `EVENT_*` constants are the scheduler's `EventType` bit flags, declared in
  the scheduler header (`Scheduler.h`, declarations only; the spec describes
  them as a combinable tagged set).  Distinct powers of two.
* `EV_*` constants are libev's receive-event bit flags (from `ev.h`, an
  external library).  Distinct powers of two, values as documented by libev.
* Watchers are identified by numeric ids; freed watcher memory is modelled
  by a `graveyard` list that still holds the record's former contents (the
  immediately-after-free situation), so that the code path taken when a
  dangling handle is dereferenced is deterministic in the model.
-/

/-- `EventType` flag for async watchers (scheduler header). -/
def EVENT_ASYNC : Nat := 1

/-- `EventType` flag for socket-read interest (scheduler header). -/
def EVENT_SOCKET_READ : Nat := 2

/-- `EventType` flag for socket-write interest (scheduler header). -/
def EVENT_SOCKET_WRITE : Nat := 4

/-- `EventType` flag for periodic watchers (scheduler header). -/
def EVENT_PERIODIC : Nat := 8

/-- `EventType` flag for signal watchers (scheduler header). -/
def EVENT_SIGNAL : Nat := 16

/-- `EventType` flag for timer watchers (scheduler header). -/
def EVENT_TIMER : Nat := 32

/-- libev receive flag: descriptor readable. -/
def EV_READ : Nat := 1

/-- libev receive flag: descriptor writable. -/
def EV_WRITE : Nat := 2

/-- libev receive flag: timer expired. -/
def EV_TIMER : Nat := 256

/-- libev receive flag: periodic timer fired. -/
def EV_PERIODIC : Nat := 512

/-- libev receive flag: signal delivered. -/
def EV_SIGNAL : Nat := 1024

/-- libev receive flag: async watcher signalled. -/
def EV_ASYNC : Nat := 524288

/-- Watcher ids stand in for the watcher pointers of the C++ code. -/
abbrev WatcherId := Nat

/-- Task ids stand in for the `Task*` pointers bound to a watcher. -/
abbrev TaskId := Nat

/--
One watcher record.  The C++ code uses five structs (`AsyncWatcher`,
`SocketWatcher`, `PeriodicWatcher`, `SignalWatcher`, `TimerWatcher`), each
inheriting the corresponding libev struct plus the common `Watcher` base that
carries the `EventType` tag (`wtype` here); all are accessed through casts
from a common `EventToken`.  The model flattens them into one record; fields
irrelevant to a kind stay at their defaults.  libev per-watcher state that the
code observes is included: the `active` flag (`ev_is_active`), the async
`pending` flag (set by `ev_async_send`, cleared when the loop drains it), and
the timer's absolute expiry `timerAt` and `timerRepeat` interval.
-/
structure WatcherRec where
  /-- `Watcher::type`, set once by the watcher struct's constructor. -/
  wtype : Nat := 0
  /-- owning loop index (the `loop` field, set from `lookupLoop`). -/
  loop : Nat := 0
  /-- bound task (`task` field); `none` models a null `Task*`. -/
  task : Option TaskId := none
  /-- libev: watcher is currently started (`ev_is_active`). -/
  active : Bool := false
  /-- libev: async watcher has been signalled and not yet drained. -/
  pending : Bool := false
  /-- socket watchers: interest flags passed to `ev_io_init`. -/
  ioFlags : Nat := 0
  /-- socket watchers: the descriptor (`socket.fileDescriptor`). -/
  fd : Nat := 0
  /-- timer watchers: absolute expiry instant. -/
  timerAt : Nat := 0
  /-- timer watchers: libev repeat interval (0 = single shot). -/
  timerRepeat : Nat := 0
  /-- periodic watchers: phase offset passed to `ev_periodic_set`. -/
  perOffset : Nat := 0
  /-- periodic watchers: repeat interval passed to `ev_periodic_set`. -/
  perInterval : Nat := 0
  /-- signal watchers: signal number. -/
  signum : Nat := 0
  deriving Repr, DecidableEq

/-- OS-level calls the scheduler issues; recorded as a trace. -/
inductive OsCall where
  | asyncStart (loop : Nat) (w : WatcherId)
  | asyncStop (loop : Nat) (w : WatcherId)
  | asyncSend (loop : Nat) (w : WatcherId)
  | ioStart (loop : Nat) (w : WatcherId)
  | ioStop (loop : Nat) (w : WatcherId)
  | periodicStart (loop : Nat) (w : WatcherId)
  | periodicStop (loop : Nat) (w : WatcherId)
  | periodicAgain (loop : Nat) (w : WatcherId)
  | signalStart (loop : Nat) (w : WatcherId)
  | signalStop (loop : Nat) (w : WatcherId)
  | timerStart (loop : Nat) (w : WatcherId)
  | timerStop (loop : Nat) (w : WatcherId)
  | timerAgain (loop : Nat) (w : WatcherId)
  | free (w : WatcherId)
  | wakerSend (loop : Nat)
  deriving Repr, DecidableEq

/--
Scheduler state (`SchedulerLibev`).  `nrThreads` is the configured
concurrency N; `alive` is the set of live watcher allocations keyed by id
(most recent first); `graveyard` keeps the former contents of freed watcher
memory; `freed` records every `delete` of a watcher, in order (an id that
occurs twice was double-freed); `nextId` feeds fresh allocations; `now` is
the monotonic clock of the loop under consideration (claims about timing
always concern a single loop).
-/
structure Sched where
  nrThreads : Nat
  alive : List (WatcherId × WatcherRec) := []
  graveyard : List (WatcherId × WatcherRec) := []
  freed : List WatcherId := []
  nextId : WatcherId := 0
  now : Nat := 0
  deriving Repr, DecidableEq

/-- Update the record stored under `id` in an association list. -/
def updateW (l : List (WatcherId × WatcherRec)) (id : WatcherId)
    (f : WatcherRec → WatcherRec) : List (WatcherId × WatcherRec) :=
  l.map (fun p => cond (p.1 == id) (p.1, f p.2) p)

/-- Remove the entry for `id` from an association list. -/
def removeW (l : List (WatcherId × WatcherRec)) (id : WatcherId) :
    List (WatcherId × WatcherRec) :=
  l.filter (fun p => p.1 != id)

/--
`SchedulerLibev::lookupLoop`: throws `TRI_ERROR_INTERNAL` ("unknown loop")
when the index is not below `nrThreads`, otherwise returns the loop.
-/
def lookupLoop (s : Sched) (loop : Nat) : Except String Nat :=
  if loop ≥ s.nrThreads then .error "unknown loop" else .ok loop

/--
`SchedulerLibev::wakeupLoop`: same bound check as `lookupLoop`, then
`ev_async_send` on that loop's internal waker.
-/
def wakeupLoop (s : Sched) (loop : Nat) : Except String (Sched × List OsCall) :=
  if loop ≥ s.nrThreads then .error "unknown loop"
  else .ok (s, [.wakerSend loop])

/-- Allocate a fresh watcher with record `rec`; returns its id. -/
def allocW (s : Sched) (rec : WatcherRec) : WatcherId × Sched :=
  (s.nextId,
   { s with alive := (s.nextId, rec) :: s.alive, nextId := s.nextId + 1 })

/--
`SchedulerLibev::installAsyncEvent`: allocates an `AsyncWatcher`
(constructor tags it `EVENT_ASYNC`), resolves the loop via `lookupLoop`,
binds the task, then `ev_async_init` + `ev_async_start`.
-/
def installAsyncEvent (s : Sched) (loop : Nat) (task : Option TaskId) :
    Except String (WatcherId × Sched × List OsCall) := do
  let l ← lookupLoop s loop
  let rec0 : WatcherRec :=
    { wtype := EVENT_ASYNC, loop := l, task := task, active := true }
  let (id, s') := allocW s rec0
  return (id, s', [.asyncStart l id])

/--
`SchedulerLibev::installSocketEvent`: allocates a `SocketWatcher` — whose
constructor tags it `EVENT_SOCKET_READ` unconditionally — resolves the loop,
binds the task, translates the requested `EventType` interest into libev
`EV_READ`/`EV_WRITE` flags, then `ev_io_init` + `ev_io_start`.
-/
def installSocketEvent (s : Sched) (loop : Nat) (etype : Nat)
    (task : Option TaskId) (fd : Nat) :
    Except String (WatcherId × Sched × List OsCall) := do
  let l ← lookupLoop s loop
  let flags :=
    (if etype &&& EVENT_SOCKET_READ ≠ 0 then EV_READ else 0) |||
    (if etype &&& EVENT_SOCKET_WRITE ≠ 0 then EV_WRITE else 0)
  let rec0 : WatcherRec :=
    { wtype := EVENT_SOCKET_READ, loop := l, task := task, active := true,
      ioFlags := flags, fd := fd }
  let (id, s') := allocW s rec0
  return (id, s', [.ioStart l id])

/--
`SchedulerLibev::installPeriodicEvent`: allocates a `PeriodicWatcher`
(tagged `EVENT_PERIODIC`), then `ev_periodic_init(offset, interval, 0)` +
`ev_periodic_start`.
-/
def installPeriodicEvent (s : Sched) (loop : Nat) (task : Option TaskId)
    (offset interval : Nat) :
    Except String (WatcherId × Sched × List OsCall) := do
  let l ← lookupLoop s loop
  let rec0 : WatcherRec :=
    { wtype := EVENT_PERIODIC, loop := l, task := task, active := true,
      perOffset := offset, perInterval := interval }
  let (id, s') := allocW s rec0
  return (id, s', [.periodicStart l id])

/--
`SchedulerLibev::installSignalEvent`: allocates a `SignalWatcher`
(tagged `EVENT_SIGNAL`), then `ev_signal_init(signal)` + `ev_signal_start`.
-/
def installSignalEvent (s : Sched) (loop : Nat) (task : Option TaskId)
    (signal : Nat) : Except String (WatcherId × Sched × List OsCall) := do
  let l ← lookupLoop s loop
  let rec0 : WatcherRec :=
    { wtype := EVENT_SIGNAL, loop := l, task := task, active := true,
      signum := signal }
  let (id, s') := allocW s rec0
  return (id, s', [.signalStart l id])

/--
`SchedulerLibev::installTimerEvent`: allocates a `TimerWatcher`
(tagged `EVENT_TIMER`), then `ev_timer_init(timeout, 0.0)` — single shot,
repeat interval 0 — and `ev_timer_start`, which schedules expiry at
`now + timeout`.
-/
def installTimerEvent (s : Sched) (loop : Nat) (task : Option TaskId)
    (timeout : Nat) : Except String (WatcherId × Sched × List OsCall) := do
  let l ← lookupLoop s loop
  let rec0 : WatcherRec :=
    { wtype := EVENT_TIMER, loop := l, task := task, active := true,
      timerAt := s.now + timeout, timerRepeat := 0 }
  let (id, s') := allocW s rec0
  return (id, s', [.timerStart l id])

/-- The watcher memory reachable through a handle: live allocation first,
otherwise the dangling contents kept in the graveyard. -/
def derefW (s : Sched) (id : WatcherId) : Option WatcherRec :=
  match s.alive.lookup id with
  | some rec => some rec
  | none => s.graveyard.lookup id

/-- The libev stop call `uninstallEvent` issues for a watcher of tag `t`
owned by loop `l` (the body of each `switch` case before the `delete`). -/
def stopCallFor (t : Nat) (l : Nat) (id : WatcherId) : List OsCall :=
  if t = EVENT_ASYNC then [.asyncStop l id]
  else if t = EVENT_PERIODIC then [.periodicStop l id]
  else if t = EVENT_SIGNAL then [.signalStop l id]
  else if t = EVENT_SOCKET_READ then [.ioStop l id]
  else if t = EVENT_TIMER then [.timerStop l id]
  else []

/--
`SchedulerLibev::uninstallEvent`: null handle returns immediately; otherwise
reads `watcher->type` and switches on it, issuing the matching `ev_*_stop`
on the watcher's own loop and then `delete`-ing the watcher.  A tag matching
no case does nothing (the C++ `switch` has no default).  Dereferencing a
handle whose memory was already freed follows the dangling contents; the
resulting second `delete` is recorded as another `free` of the same id.
-/
def uninstallEvent (s : Sched) (token : Option WatcherId) :
    Sched × List OsCall :=
  match token with
  | none => (s, [])
  | some id =>
    match derefW s id with
    | none => (s, [])
    | some rec =>
      if rec.wtype = EVENT_ASYNC ∨ rec.wtype = EVENT_PERIODIC ∨
         rec.wtype = EVENT_SIGNAL ∨ rec.wtype = EVENT_SOCKET_READ ∨
         rec.wtype = EVENT_TIMER then
        ({ s with
           alive := removeW s.alive id,
           graveyard := (id, rec) :: removeW s.graveyard id,
           freed := s.freed ++ [id] },
         stopCallFor rec.wtype rec.loop id ++ [.free id])
      else (s, [])

/--
`SchedulerLibev::sendAsync`: null handle returns immediately; otherwise
`ev_async_send(watcher->loop, w)`, which sets the watcher's pending flag
and wakes the owning loop.
-/
def sendAsync (s : Sched) (token : Option WatcherId) : Sched × List OsCall :=
  match token with
  | none => (s, [])
  | some id =>
    match derefW s id with
    | none => (s, [])
    | some rec =>
      ({ s with alive := updateW s.alive id (fun r => { r with pending := true }) },
       [.asyncSend rec.loop id])

/--
`SchedulerLibev::startSocketEvents`: null handle returns immediately;
otherwise `ev_io_start` only when the watcher is not already active
(`!ev_is_active`).
-/
def startSocketEvents (s : Sched) (token : Option WatcherId) :
    Sched × List OsCall :=
  match token with
  | none => (s, [])
  | some id =>
    match derefW s id with
    | none => (s, [])
    | some rec =>
      if rec.active then (s, [])
      else
        ({ s with alive := updateW s.alive id (fun r => { r with active := true }) },
         [.ioStart rec.loop id])

/--
`SchedulerLibev::stopSocketEvents`: null handle returns immediately;
otherwise `ev_io_stop` only when the watcher is active (`ev_is_active`).
-/
def stopSocketEvents (s : Sched) (token : Option WatcherId) :
    Sched × List OsCall :=
  match token with
  | none => (s, [])
  | some id =>
    match derefW s id with
    | none => (s, [])
    | some rec =>
      if rec.active then
        ({ s with alive := updateW s.alive id (fun r => { r with active := false }) },
         [.ioStop rec.loop id])
      else (s, [])

/--
`SchedulerLibev::rearmPeriodic`: null handle returns immediately; otherwise
`ev_periodic_set(offset, interval, 0)` followed by `ev_periodic_again`.
-/
def rearmPeriodic (s : Sched) (token : Option WatcherId)
    (offset interval : Nat) : Sched × List OsCall :=
  match token with
  | none => (s, [])
  | some id =>
    match derefW s id with
    | none => (s, [])
    | some rec =>
      ({ s with alive := updateW s.alive id (fun r =>
          { r with perOffset := offset, perInterval := interval, active := true }) },
       [.periodicAgain rec.loop id])

/--
`SchedulerLibev::rearmTimer`: null handle returns immediately; otherwise
`ev_timer_set(w, 0.0, timeout)` — sets `after := 0` and `repeat := timeout`
— followed by `ev_timer_again`.  libev's documented `ev_timer_again`
semantics with a non-zero `repeat`: (re)start the timer to expire `repeat`
seconds from now, whether or not it was active (a dormant fired timer is
reactivated); with `repeat = 0` an active timer is stopped.
-/
def rearmTimer (s : Sched) (token : Option WatcherId) (timeout : Nat) :
    Sched × List OsCall :=
  match token with
  | none => (s, [])
  | some id =>
    match derefW s id with
    | none => (s, [])
    | some rec =>
      if timeout ≠ 0 then
        ({ s with alive := updateW s.alive id (fun r =>
            { r with timerRepeat := timeout, timerAt := s.now + timeout,
                     active := true }) },
         [.timerAgain rec.loop id])
      else if rec.active then
        ({ s with alive := updateW s.alive id (fun r =>
            { r with timerRepeat := 0, active := false }) },
         [.timerAgain rec.loop id, .timerStop rec.loop id])
      else (s, [.timerAgain rec.loop id])

/--
`SchedulerLibev::clearTimer`: null handle returns immediately; otherwise
`ev_timer_stop` on the owning loop.
-/
def clearTimer (s : Sched) (token : Option WatcherId) : Sched × List OsCall :=
  match token with
  | none => (s, [])
  | some id =>
    match derefW s id with
    | none => (s, [])
    | some rec =>
      ({ s with alive := updateW s.alive id (fun r => { r with active := false }) },
       [.timerStop rec.loop id])

/-- One observed `Task::handleEvent(watcher, events)` call. -/
structure Invocation where
  task : TaskId
  watcher : WatcherId
  events : Nat
  deriving Repr, DecidableEq

/--
`asyncCallback` (anonymous namespace): invokes `handleEvent(watcher,
EVENT_ASYNC)` iff the task pointer is non-null, `revents` has `EV_ASYNC`
set, and the task reports itself active.  `isActive` models each task's
`Task::isActive()` at this instant.
-/
def asyncCallback (isActive : TaskId → Bool) (id : WatcherId)
    (rec : WatcherRec) (revents : Nat) : List Invocation :=
  match rec.task with
  | none => []
  | some t =>
    if revents &&& EV_ASYNC ≠ 0 ∧ isActive t then [⟨t, id, EVENT_ASYNC⟩]
    else []

/--
`socketCallback` (anonymous namespace): with a non-null active task, a wake
carrying both `EV_READ` and `EV_WRITE` produces one `handleEvent` call with
`EVENT_SOCKET_READ | EVENT_SOCKET_WRITE`; read only produces one call with
`EVENT_SOCKET_READ`; write only one call with `EVENT_SOCKET_WRITE`.
-/
def socketCallback (isActive : TaskId → Bool) (id : WatcherId)
    (rec : WatcherRec) (revents : Nat) : List Invocation :=
  match rec.task with
  | none => []
  | some t =>
    if isActive t then
      if revents &&& EV_READ ≠ 0 then
        if revents &&& EV_WRITE ≠ 0 then
          [⟨t, id, EVENT_SOCKET_READ ||| EVENT_SOCKET_WRITE⟩]
        else [⟨t, id, EVENT_SOCKET_READ⟩]
      else if revents &&& EV_WRITE ≠ 0 then [⟨t, id, EVENT_SOCKET_WRITE⟩]
      else []
    else []

/--
`periodicCallback` (anonymous namespace): invokes `handleEvent(watcher,
EVENT_PERIODIC)` iff the task is non-null, `EV_PERIODIC` fired and the task
is active.
-/
def periodicCallback (isActive : TaskId → Bool) (id : WatcherId)
    (rec : WatcherRec) (revents : Nat) : List Invocation :=
  match rec.task with
  | none => []
  | some t =>
    if revents &&& EV_PERIODIC ≠ 0 ∧ isActive t then [⟨t, id, EVENT_PERIODIC⟩]
    else []

/--
`signalCallback` (anonymous namespace): invokes `handleEvent(watcher,
EVENT_SIGNAL)` iff the task is non-null, `EV_SIGNAL` fired and the task is
active.
-/
def signalCallback (isActive : TaskId → Bool) (id : WatcherId)
    (rec : WatcherRec) (revents : Nat) : List Invocation :=
  match rec.task with
  | none => []
  | some t =>
    if revents &&& EV_SIGNAL ≠ 0 ∧ isActive t then [⟨t, id, EVENT_SIGNAL⟩]
    else []

/--
`timerCallback` (anonymous namespace): invokes `handleEvent(watcher,
EVENT_TIMER)` iff the task is non-null, `EV_TIMER` fired and the task is
active.
-/
def timerCallback (isActive : TaskId → Bool) (id : WatcherId)
    (rec : WatcherRec) (revents : Nat) : List Invocation :=
  match rec.task with
  | none => []
  | some t =>
    if revents &&& EV_TIMER ≠ 0 ∧ isActive t then [⟨t, id, EVENT_TIMER⟩]
    else []

/--
One poll wakeup of the owning loop, restricted to an async watcher: libev
checks the watcher's pending flag (set by `ev_async_send`), and when set
clears it and invokes the watcher's callback once with `EV_ASYNC`.  The
flag is a single bit, so any number of `ev_async_send` calls since the last
drain produce one callback invocation.
-/
def drainAsync (isActive : TaskId → Bool) (s : Sched) (id : WatcherId) :
    Sched × List Invocation :=
  match s.alive.lookup id with
  | none => (s, [])
  | some rec =>
    if rec.pending then
      ({ s with alive := updateW s.alive id (fun r => { r with pending := false }) },
       asyncCallback isActive id rec EV_ASYNC)
    else (s, [])

/--
One poll wakeup of the owning loop, restricted to a timer watcher: libev's
timer reification at clock `now` — if the timer is active and its expiry
instant has been reached, invoke its callback with `EV_TIMER` and then
either restart it at `now + repeat` (when `repeat ≠ 0`) or stop it (when
`repeat = 0`, the single-shot case).
-/
def timerPoll (isActive : TaskId → Bool) (s : Sched) (id : WatcherId) :
    Sched × List Invocation :=
  match s.alive.lookup id with
  | none => (s, [])
  | some rec =>
    if rec.wtype = EVENT_TIMER ∧ rec.active ∧ rec.timerAt ≤ s.now then
      let s' :=
        if rec.timerRepeat ≠ 0 then
          { s with alive := updateW s.alive id (fun r =>
              { r with timerAt := s.now + rec.timerRepeat }) }
        else
          { s with alive := updateW s.alive id (fun r =>
              { r with active := false }) }
      (s', timerCallback isActive id rec EV_TIMER)
    else (s, [])

/-- Advance the loop's monotonic clock by `d`. -/
def advanceClock (s : Sched) (d : Nat) : Sched :=
  { s with now := s.now + d }

/-- Steps of the `SchedulerLibev` destructor, in program order. -/
inductive DtorAction where
  | beginShutdown (i : Nat)
  | stopThread (i : Nat)
  | usleep
  | asyncStopWaker (i : Nat)
  | loopDestroy (i : Nat)
  | defaultDestroy
  | deleteThread (i : Nat)
  | deleteWaker (i : Nat)
  | deleteLoopsBuffer
  | deleteThreadsBuffer
  | deleteWakersBuffer
  deriving Repr, DecidableEq

/-- The destructor's bounded wait: `for (i = 0; i < 100 && isRunning(); ++i)
usleep(100)`.  `running k` tells whether some thread is still running after
`k` sleeps; the result is the number of iterations executed. -/
def sleepCountAux (running : Nat → Bool) : Nat → Nat → Nat
  | k, 0 => k
  | k, fuel + 1 => if running k then sleepCountAux running (k + 1) fuel else k

/-- Number of `usleep(100)` iterations the destructor performs. -/
def sleepCount (running : Nat → Bool) : Nat :=
  sleepCountAux running 0 100

/--
`SchedulerLibev::~SchedulerLibev` as the sequence of steps it performs, for
a pool of `n` loops/threads: (1) `beginShutdown` on every thread; (2) `stop`
on every thread, then the bounded `usleep` wait; (3) for every loop `i ≥ 1`,
`ev_async_stop` of its waker then `ev_loop_destroy`; (4) `ev_async_stop` of
loop 0's waker then `ev_default_destroy`; (5) delete each thread and waker,
then the loops, threads and wakers buffers.
-/
def destructorTrace (n : Nat) (running : Nat → Bool) : List DtorAction :=
  ((List.range n).map .beginShutdown)
  ++ ((List.range n).map .stopThread)
  ++ List.replicate (sleepCount running) .usleep
  ++ ((List.range (n - 1)).flatMap (fun i =>
        [.asyncStopWaker (i + 1), .loopDestroy (i + 1)]))
  ++ [.asyncStopWaker 0, .defaultDestroy]
  ++ ((List.range n).flatMap (fun i => [.deleteThread i, .deleteWaker i]))
  ++ [.deleteLoopsBuffer, .deleteThreadsBuffer, .deleteWakersBuffer]

theorem lookup_updateW_self (l : List (WatcherId × WatcherRec)) (id : WatcherId)
    (f : WatcherRec → WatcherRec) :
    (updateW l id f).lookup id = (l.lookup id).map f := by
  induction l with
  | nil => rfl
  | cons p l ih =>
    obtain ⟨k, v⟩ := p
    by_cases h : k = id
    · subst h
      simp [updateW, List.lookup]
    · have h2 : (id == k) = false := by
        simp [Ne.symm h]
      have h3 : (k == id) = false := by
        simp [h]
      simp only [updateW, List.map] at ih ⊢
      simp [List.lookup, h2, h3, ih]

theorem derefW_of_alive (s : Sched) (id : WatcherId) (rec : WatcherRec)
    (h : s.alive.lookup id = some rec) : derefW s id = some rec := by
  simp [derefW, h]

/--
C7: each handle-taking operation — `uninstallEvent`, `rearmPeriodic`,
`rearmTimer`, `startSocketEvents`, `stopSocketEvents`, `sendAsync` — called
with a null/absent handle returns without error and leaves the whole
scheduler state (loops, registrations, wakers) unchanged, issuing no OS
call.
-/
theorem null_handle_is_noop (s : Sched) (off itv τ : Nat) :
    uninstallEvent s none = (s, []) ∧
    rearmPeriodic s none off itv = (s, []) ∧
    rearmTimer s none τ = (s, []) ∧
    startSocketEvents s none = (s, []) ∧
    stopSocketEvents s none = (s, []) ∧
    sendAsync s none = (s, []) :=
  ⟨rfl, rfl, rfl, rfl, rfl, rfl⟩

/--
C5: when a socket watcher's descriptor fired both readable and writable in
the same poll wake, `socketCallback` invokes the bound task's `handleEvent`
exactly once, with the combined bitmask `EVENT_SOCKET_READ |
EVENT_SOCKET_WRITE` — never as two separate calls; when only one of the two
conditions fired, it invokes `handleEvent` once with only that bit.
-/
theorem socket_combined_dispatch (isActive : TaskId → Bool) (id : WatcherId)
    (rec : WatcherRec) (t : TaskId) (revents : Nat)
    (ht : rec.task = some t) (ha : isActive t = true) :
    (revents &&& EV_READ ≠ 0 → revents &&& EV_WRITE ≠ 0 →
      socketCallback isActive id rec revents =
        [⟨t, id, EVENT_SOCKET_READ ||| EVENT_SOCKET_WRITE⟩]) ∧
    (revents &&& EV_READ ≠ 0 → revents &&& EV_WRITE = 0 →
      socketCallback isActive id rec revents = [⟨t, id, EVENT_SOCKET_READ⟩]) ∧
    (revents &&& EV_READ = 0 → revents &&& EV_WRITE ≠ 0 →
      socketCallback isActive id rec revents = [⟨t, id, EVENT_SOCKET_WRITE⟩]) := by
  refine ⟨fun hr hw => ?_, fun hr hw => ?_, fun hr hw => ?_⟩ <;>
    simp [socketCallback, ht, ha, hr, hw]

/-- C5 witness: a wake with both `EV_READ` and `EV_WRITE` set yields the one
combined invocation on a concrete watcher. -/
theorem socket_combined_dispatch_witness :
    socketCallback (fun _ => true) 0
      { wtype := EVENT_SOCKET_READ, task := some 3 } (EV_READ ||| EV_WRITE) =
      [⟨3, 0, EVENT_SOCKET_READ ||| EVENT_SOCKET_WRITE⟩] :=
  (socket_combined_dispatch (fun _ => true) 0
      { wtype := EVENT_SOCKET_READ, task := some 3 } 3 (EV_READ ||| EV_WRITE)
      rfl rfl).1 (by decide) (by decide)

/--
C6: for every watcher kind (async, socket, periodic, signal, timer), when
the kind's event fired in `revents`, the callback invokes the bound task's
`handleEvent` iff the task reports itself active at that instant; an
inactive task's event is silently dropped (empty invocation list, the
callback returns normally — no error channel exists in the dispatch path).
-/
theorem dispatch_iff_task_active (isActive : TaskId → Bool) (id : WatcherId)
    (rec : WatcherRec) (t : TaskId) (revents : Nat)
    (ht : rec.task = some t) :
    (revents &&& EV_ASYNC ≠ 0 →
      (asyncCallback isActive id rec revents ≠ [] ↔ isActive t = true)) ∧
    ((revents &&& EV_READ ≠ 0 ∨ revents &&& EV_WRITE ≠ 0) →
      (socketCallback isActive id rec revents ≠ [] ↔ isActive t = true)) ∧
    (revents &&& EV_PERIODIC ≠ 0 →
      (periodicCallback isActive id rec revents ≠ [] ↔ isActive t = true)) ∧
    (revents &&& EV_SIGNAL ≠ 0 →
      (signalCallback isActive id rec revents ≠ [] ↔ isActive t = true)) ∧
    (revents &&& EV_TIMER ≠ 0 →
      (timerCallback isActive id rec revents ≠ [] ↔ isActive t = true)) ∧
    (isActive t = false →
      asyncCallback isActive id rec revents = [] ∧
      socketCallback isActive id rec revents = [] ∧
      periodicCallback isActive id rec revents = [] ∧
      signalCallback isActive id rec revents = [] ∧
      timerCallback isActive id rec revents = []) := by
  by_cases ha : isActive t = true
  · refine ⟨fun hb => ?_, fun hb => ?_, fun hb => ?_, fun hb => ?_, fun hb => ?_,
      fun hf => ?_⟩
    · simp [asyncCallback, ht, ha, hb]
    · rcases hb with hb | hb
      · by_cases hw : revents &&& EV_WRITE ≠ 0 <;>
          simp [socketCallback, ht, ha, hb, hw]
      · by_cases hr : revents &&& EV_READ ≠ 0 <;>
          simp [socketCallback, ht, ha, hb, hr]
    · simp [periodicCallback, ht, ha, hb]
    · simp [signalCallback, ht, ha, hb]
    · simp [timerCallback, ht, ha, hb]
    · rw [hf] at ha
      simp at ha
  · have ha' : isActive t = false := by
      simpa using ha
    refine ⟨fun hb => ?_, fun hb => ?_, fun hb => ?_, fun hb => ?_, fun hb => ?_,
      fun hf => ?_⟩ <;>
      simp [asyncCallback, socketCallback, periodicCallback, signalCallback,
        timerCallback, ht, ha']

/-- C6 witness: on a concrete watcher whose event fired, the active task is
invoked and, with the activity flag flipped, the same event is dropped. -/
theorem dispatch_iff_task_active_witness :
    (timerCallback (fun _ => true) 0 { wtype := EVENT_TIMER, task := some 5 }
        EV_TIMER ≠ [] ↔ (fun (_ : TaskId) => true) 5 = true) ∧
    ((fun (_ : TaskId) => false) 5 = false →
      asyncCallback (fun _ => false) 0 { wtype := EVENT_TIMER, task := some 5 }
          EV_TIMER = [] ∧
      socketCallback (fun _ => false) 0 { wtype := EVENT_TIMER, task := some 5 }
          EV_TIMER = [] ∧
      periodicCallback (fun _ => false) 0 { wtype := EVENT_TIMER, task := some 5 }
          EV_TIMER = [] ∧
      signalCallback (fun _ => false) 0 { wtype := EVENT_TIMER, task := some 5 }
          EV_TIMER = [] ∧
      timerCallback (fun _ => false) 0 { wtype := EVENT_TIMER, task := some 5 }
          EV_TIMER = []) :=
  ⟨(dispatch_iff_task_active (fun _ => true) 0
      { wtype := EVENT_TIMER, task := some 5 } 5 EV_TIMER rfl).2.2.2.2.1
      (by decide),
   (dispatch_iff_task_active (fun _ => false) 0
      { wtype := EVENT_TIMER, task := some 5 } 5 EV_TIMER rfl).2.2.2.2.2⟩

/--
C8: `wakeupLoop` and every install operation raise the internal-error
condition ("unknown loop") exactly when the loop index is out of range
(`i ≥ nrThreads`); in range, `wakeupLoop` signals that loop's waker without
error, and each install succeeds, returning a freshly allocated (hence
non-null) handle whose record is bound to loop `i` and the given task; the
last conjunct shows the fresh handle resolves to its record in the new
registration list.
-/
theorem loop_index_validation (s : Sched) (i : Nat) (t : TaskId)
    (etype fd sig τ off itv : Nat) :
    (wakeupLoop s i = if s.nrThreads ≤ i then .error "unknown loop"
      else .ok (s, [.wakerSend i])) ∧
    (installAsyncEvent s i (some t) =
      if s.nrThreads ≤ i then .error "unknown loop"
      else .ok (s.nextId,
        { s with
          alive := (s.nextId, { wtype := EVENT_ASYNC, loop := i,
                                task := some t, active := true }) :: s.alive,
          nextId := s.nextId + 1 },
        [.asyncStart i s.nextId])) ∧
    (installSocketEvent s i etype (some t) fd =
      if s.nrThreads ≤ i then .error "unknown loop"
      else .ok (s.nextId,
        { s with
          alive := (s.nextId,
                    { wtype := EVENT_SOCKET_READ, loop := i, task := some t,
                      active := true,
                      ioFlags :=
                        (if etype &&& EVENT_SOCKET_READ ≠ 0 then EV_READ
                         else 0) |||
                        (if etype &&& EVENT_SOCKET_WRITE ≠ 0 then EV_WRITE
                         else 0),
                      fd := fd }) :: s.alive,
          nextId := s.nextId + 1 },
        [.ioStart i s.nextId])) ∧
    (installPeriodicEvent s i (some t) off itv =
      if s.nrThreads ≤ i then .error "unknown loop"
      else .ok (s.nextId,
        { s with
          alive := (s.nextId,
                    { wtype := EVENT_PERIODIC, loop := i, task := some t,
                      active := true, perOffset := off,
                      perInterval := itv }) :: s.alive,
          nextId := s.nextId + 1 },
        [.periodicStart i s.nextId])) ∧
    (installSignalEvent s i (some t) sig =
      if s.nrThreads ≤ i then .error "unknown loop"
      else .ok (s.nextId,
        { s with
          alive := (s.nextId,
                    { wtype := EVENT_SIGNAL, loop := i, task := some t,
                      active := true, signum := sig }) :: s.alive,
          nextId := s.nextId + 1 },
        [.signalStart i s.nextId])) ∧
    (installTimerEvent s i (some t) τ =
      if s.nrThreads ≤ i then .error "unknown loop"
      else .ok (s.nextId,
        { s with
          alive := (s.nextId,
                    { wtype := EVENT_TIMER, loop := i, task := some t,
                      active := true, timerAt := s.now + τ,
                      timerRepeat := 0 }) :: s.alive,
          nextId := s.nextId + 1 },
        [.timerStart i s.nextId])) ∧
    (∀ rec : WatcherRec,
      ((s.nextId, rec) :: s.alive).lookup s.nextId = some rec) := by
  by_cases hi : s.nrThreads ≤ i <;>
    refine ⟨?_, ?_, ?_, ?_, ?_, ?_, fun rec => ?_⟩ <;>
      simp [wakeupLoop, installAsyncEvent, installSocketEvent,
        installPeriodicEvent, installSignalEvent, installTimerEvent,
        lookupLoop, allocW, hi, List.lookup]

/--
C9: `startSocketEvents` and `stopSocketEvents` are idempotent on a live
handle: starting an already-started watcher and stopping an already-stopped
one each return the state unchanged with no OS call; in every case the
handle survives (its record stays in the registration list, with `active`
set accordingly) and nothing is freed.
-/
theorem socket_toggle_idempotent (s : Sched) (id : WatcherId)
    (rec : WatcherRec) (h : s.alive.lookup id = some rec) :
    (rec.active = true → startSocketEvents s (some id) = (s, [])) ∧
    (rec.active = false → stopSocketEvents s (some id) = (s, [])) ∧
    ((startSocketEvents s (some id)).1.alive.lookup id =
      some { rec with active := true }) ∧
    ((stopSocketEvents s (some id)).1.alive.lookup id =
      some { rec with active := false }) ∧
    (startSocketEvents s (some id)).1.freed = s.freed ∧
    (stopSocketEvents s (some id)).1.freed = s.freed := by
  have hd : derefW s id = some rec := derefW_of_alive s id rec h
  by_cases hact : rec.active = true
  · have heta : { rec with active := true } = rec := by
      cases rec
      simp_all
    refine ⟨fun _ => ?_, fun hf => ?_, ?_, ?_, ?_, ?_⟩
    · simp [startSocketEvents, hd, hact]
    · rw [hf] at hact
      simp at hact
    · simp [startSocketEvents, hd, hact, h, heta]
    · simp [stopSocketEvents, hd, hact, lookup_updateW_self, h]
    · simp [startSocketEvents, hd, hact]
    · simp [stopSocketEvents, hd, hact]
  · have hact' : rec.active = false := by
      simpa using hact
    have heta : { rec with active := false } = rec := by
      cases rec
      simp_all
    refine ⟨fun hf => ?_, fun _ => ?_, ?_, ?_, ?_, ?_⟩
    · rw [hf] at hact'
      simp at hact'
    · simp [stopSocketEvents, hd, hact']
    · simp [startSocketEvents, hd, hact', lookup_updateW_self, h]
    · simp [stopSocketEvents, hd, hact', h, heta]
    · simp [startSocketEvents, hd, hact']
    · simp [stopSocketEvents, hd, hact']

/-- C9 witness: on a concrete scheduler holding one started socket watcher,
a second start is the identity. -/
theorem socket_toggle_idempotent_witness :
    ({ nrThreads := 1,
       alive := [(0, { wtype := 2, loop := 0, task := some 1, active := true,
                       ioFlags := 1, fd := 9 })] } : Sched).alive.lookup 0 =
      some { wtype := 2, loop := 0, task := some 1, active := true,
             ioFlags := 1, fd := 9 } ∧
    startSocketEvents
      { nrThreads := 1,
        alive := [(0, { wtype := 2, loop := 0, task := some 1, active := true,
                        ioFlags := 1, fd := 9 })] } (some 0) =
      ({ nrThreads := 1,
         alive := [(0, { wtype := 2, loop := 0, task := some 1, active := true,
                         ioFlags := 1, fd := 9 })] }, []) :=
  ⟨by decide,
   (socket_toggle_idempotent
      { nrThreads := 1,
        alive := [(0, { wtype := 2, loop := 0, task := some 1, active := true,
                        ioFlags := 1, fd := 9 })] }
      0
      { wtype := 2, loop := 0, task := some 1, active := true, ioFlags := 1,
        fd := 9 }
      (by decide)).1 rfl⟩

theorem lookup_removeW (l : List (WatcherId × WatcherRec)) (id : WatcherId) :
    (removeW l id).lookup id = none := by
  induction l with
  | nil => rfl
  | cons p l ih =>
    obtain ⟨k, v⟩ := p
    simp only [removeW] at ih ⊢
    by_cases h : k = id
    · have h4 : ((k, v).1 != id) = false := by
        simp [h]
      rw [List.filter_cons, h4]
      simpa using ih
    · have h2 : (id == k) = false := by
        simp [Ne.symm h]
      have h3 : ((k, v).1 != id) = true := by
        simp [h]
      rw [List.filter_cons, h3]
      simp only [if_true]
      simp only [List.lookup, h2]
      exact ih

/--
C1 (amended): `uninstallEvent` on a live watcher of any of the five kinds
issues exactly one OS-level stop — the one matching the watcher's kind tag,
on the watcher's owning loop — followed by exactly one `delete`, and removes
the handle from the registration list; on a null handle it is a no-op.
However, a *second* `uninstallEvent` of the same (now dangling) handle is
not a no-op: it dereferences the freed memory and re-issues the same stop
and the same `delete`, double-freeing the watcher, exactly the behavior the
spec's §3 declares undefined.
-/
theorem uninstall_deregisters_once (s : Sched) (id : WatcherId)
    (rec : WatcherRec) (h : s.alive.lookup id = some rec)
    (hk : rec.wtype = EVENT_ASYNC ∨ rec.wtype = EVENT_PERIODIC ∨
      rec.wtype = EVENT_SIGNAL ∨ rec.wtype = EVENT_SOCKET_READ ∨
      rec.wtype = EVENT_TIMER) :
    (uninstallEvent s (some id)).2 =
      stopCallFor rec.wtype rec.loop id ++ [.free id] ∧
    (stopCallFor rec.wtype rec.loop id).length = 1 ∧
    (uninstallEvent s (some id)).1.alive.lookup id = none ∧
    (uninstallEvent s (some id)).1.freed = s.freed ++ [id] ∧
    uninstallEvent s none = (s, []) ∧
    (uninstallEvent (uninstallEvent s (some id)).1 (some id)).2 =
      stopCallFor rec.wtype rec.loop id ++ [.free id] ∧
    (uninstallEvent (uninstallEvent s (some id)).1 (some id)).1.freed =
      s.freed ++ [id, id] := by
  have hd : derefW s id = some rec := derefW_of_alive s id rec h
  have hlen : (stopCallFor rec.wtype rec.loop id).length = 1 := by
    rcases hk with hk | hk | hk | hk | hk <;> simp [stopCallFor, hk,
      EVENT_ASYNC, EVENT_PERIODIC, EVENT_SIGNAL, EVENT_SOCKET_READ,
      EVENT_TIMER]
  have hcase : uninstallEvent s (some id) =
      ({ s with
         alive := removeW s.alive id,
         graveyard := (id, rec) :: removeW s.graveyard id,
         freed := s.freed ++ [id] },
       stopCallFor rec.wtype rec.loop id ++ [.free id]) := by
    simp [uninstallEvent, hd, hk]
  have hd2 : derefW
      ({ s with
         alive := removeW s.alive id,
         graveyard := (id, rec) :: removeW s.graveyard id,
         freed := s.freed ++ [id] } : Sched) id = some rec := by
    simp [derefW, lookup_removeW, List.lookup]
  have hcase2 : uninstallEvent
      ({ s with
         alive := removeW s.alive id,
         graveyard := (id, rec) :: removeW s.graveyard id,
         freed := s.freed ++ [id] } : Sched) (some id) =
      ({ s with
         alive := removeW (removeW s.alive id) id,
         graveyard := (id, rec) :: removeW ((id, rec) :: removeW s.graveyard id) id,
         freed := (s.freed ++ [id]) ++ [id] },
       stopCallFor rec.wtype rec.loop id ++ [.free id]) := by
    simp [uninstallEvent, hd2, hk]
  refine ⟨?_, hlen, ?_, ?_, rfl, ?_, ?_⟩
  · rw [hcase]
  · rw [hcase]
    exact lookup_removeW s.alive id
  · rw [hcase]
  · rw [hcase]
    rw [hcase2]
  · rw [hcase]
    rw [hcase2]
    simp

/--
C1 counterexample: concretely, installing an async watcher and uninstalling
it twice shows the second uninstall is not a no-op — it issues a second
`ev_async_stop` and a second `delete` of watcher 0 (`freed = [0, 0]`),
refuting "uninstall(W) followed by any further operation on the same handle
W is a no-op that never double-frees".
-/
theorem uninstall_twice_double_frees :
    installAsyncEvent { nrThreads := 1 } 0 (some 7) =
      .ok (0,
        { nrThreads := 1,
          alive := [(0, { wtype := 1, loop := 0, task := some 7,
                          active := true })],
          nextId := 1 },
        [.asyncStart 0 0]) ∧
    (uninstallEvent (uninstallEvent
        { nrThreads := 1,
          alive := [(0, { wtype := 1, loop := 0, task := some 7,
                          active := true })],
          nextId := 1 } (some 0)).1 (some 0)).2 =
      [.asyncStop 0 0, .free 0] ∧
    (uninstallEvent (uninstallEvent
        { nrThreads := 1,
          alive := [(0, { wtype := 1, loop := 0, task := some 7,
                          active := true })],
          nextId := 1 } (some 0)).1 (some 0)).1.freed = [0, 0] :=
  ⟨rfl, rfl, rfl⟩

/-- C1 witness: the amended theorem applied to a concrete scheduler holding
one installed async watcher. -/
theorem uninstall_deregisters_once_witness :
    (uninstallEvent
      { nrThreads := 1,
        alive := [(0, { wtype := 1, loop := 0, task := some 7,
                        active := true })],
        nextId := 1 } (some 0)).2 =
      stopCallFor 1 0 0 ++ [.free 0] ∧
    (stopCallFor 1 0 0).length = 1 :=
  ⟨(uninstall_deregisters_once
      { nrThreads := 1,
        alive := [(0, { wtype := 1, loop := 0, task := some 7,
                        active := true })],
        nextId := 1 }
      0 { wtype := 1, loop := 0, task := some 7, active := true }
      rfl (Or.inl rfl)).1,
   (uninstall_deregisters_once
      { nrThreads := 1,
        alive := [(0, { wtype := 1, loop := 0, task := some 7,
                        active := true })],
        nextId := 1 }
      0 { wtype := 1, loop := 0, task := some 7, active := true }
      rfl (Or.inl rfl)).2.1⟩

/-- `K` consecutive `sendAsync` calls on the same handle, with no poll
wakeup in between. -/
def sendAsyncK (s : Sched) (id : WatcherId) : Nat → Sched
  | 0 => s
  | k + 1 => sendAsyncK (sendAsync s (some id)).1 id k

/-- `K` rounds of `sendAsync` followed by a loop drain; returns the final
state and the total number of `handleEvent` invocations observed. -/
def sendDrainRounds (isActive : TaskId → Bool) (s : Sched) (id : WatcherId) :
    Nat → Sched × Nat
  | 0 => (s, 0)
  | k + 1 =>
    let s1 := (sendAsync s (some id)).1
    let p := drainAsync isActive s1 id
    let r := sendDrainRounds isActive p.1 id k
    (r.1, p.2.length + r.2)

theorem sendAsync_alive (s : Sched) (id : WatcherId) (rec : WatcherRec)
    (h : s.alive.lookup id = some rec) :
    (sendAsync s (some id)).1.alive.lookup id =
      some { rec with pending := true } := by
  simp [sendAsync, derefW_of_alive s id rec h, lookup_updateW_self, h]

theorem lookup_sendAsyncK (id : WatcherId) :
    ∀ (k : Nat) (s : Sched) (rec : WatcherRec),
      s.alive.lookup id = some rec → 1 ≤ k →
      (sendAsyncK s id k).alive.lookup id =
        some { rec with pending := true } := by
  intro k
  induction k with
  | zero => intro s rec _ hk; exact absurd hk (by simp)
  | succ k ih =>
    intro s rec h _
    have h1 := sendAsync_alive s id rec h
    match k with
    | 0 => simpa [sendAsyncK] using h1
    | k' + 1 =>
      have := ih (sendAsync s (some id)).1 { rec with pending := true } h1
        (Nat.succ_le_succ (Nat.zero_le k'))
      simpa [sendAsyncK] using this

theorem drainAsync_fires (isActive : TaskId → Bool) (s : Sched)
    (id : WatcherId) (rec : WatcherRec) (t : TaskId)
    (h : s.alive.lookup id = some rec) (hp : rec.pending = true)
    (ht : rec.task = some t) (ha : isActive t = true) :
    (drainAsync isActive s id).2 = [⟨t, id, EVENT_ASYNC⟩] ∧
    (drainAsync isActive s id).1.alive.lookup id =
      some { rec with pending := false } := by
  have hbit : EV_ASYNC &&& EV_ASYNC ≠ 0 := by decide
  have hz : EV_ASYNC ≠ 0 := by decide
  constructor <;>
    simp [drainAsync, h, hp, asyncCallback, ht, ha, hbit, hz,
      lookup_updateW_self]

theorem drainAsync_quiet (isActive : TaskId → Bool) (s : Sched)
    (id : WatcherId) (rec : WatcherRec)
    (h : s.alive.lookup id = some rec) (hp : rec.pending = false) :
    drainAsync isActive s id = (s, []) := by
  simp [drainAsync, h, hp]

theorem sendDrainRounds_count (isActive : TaskId → Bool) (id : WatcherId)
    (t : TaskId) (ha : isActive t = true) :
    ∀ (k : Nat) (s : Sched) (rec : WatcherRec),
      s.alive.lookup id = some rec → rec.task = some t →
      (sendDrainRounds isActive s id k).2 = k := by
  intro k
  induction k with
  | zero => intro s rec _ _; rfl
  | succ k ih =>
    intro s rec h ht
    have h1 := sendAsync_alive s id rec h
    have hfire := drainAsync_fires isActive (sendAsync s (some id)).1 id
      { rec with pending := true } t h1 rfl ht ha
    have hrec := ih (drainAsync isActive (sendAsync s (some id)).1 id).1
      { rec with pending := false } (by simpa using hfire.2) ht
    simp [sendDrainRounds, hfire.1, hrec, Nat.add_comm]

/--
C2: signalling an async watcher is a trigger, not a queue.  `K ≥ 1` calls
to `sendAsync` on a live async handle before the owning loop's next poll
wakeup coalesce: the next drain invokes the bound task's `handleEvent`
exactly once (with `EVENT_ASYNC`), and a further drain with no new signal
invokes nothing.  By contrast, `K` rounds of `sendAsync` each followed by a
loop drain produce exactly `K` invocations.
-/
theorem sendAsync_coalesces (isActive : TaskId → Bool) (s : Sched)
    (id : WatcherId) (rec : WatcherRec) (t : TaskId) (K : Nat)
    (h : s.alive.lookup id = some rec) (ht : rec.task = some t)
    (ha : isActive t = true) (hK : 1 ≤ K) :
    (drainAsync isActive (sendAsyncK s id K) id).2 =
      [⟨t, id, EVENT_ASYNC⟩] ∧
    (drainAsync isActive
      (drainAsync isActive (sendAsyncK s id K) id).1 id).2 = [] ∧
    (sendDrainRounds isActive s id K).2 = K := by
  have hsent := lookup_sendAsyncK id K s rec h hK
  have hfire := drainAsync_fires isActive (sendAsyncK s id K) id
    { rec with pending := true } t hsent rfl ht ha
  refine ⟨hfire.1, ?_, sendDrainRounds_count isActive id t ha K s rec h ht⟩
  have hq := drainAsync_quiet isActive
    (drainAsync isActive (sendAsyncK s id K) id).1 id
    { rec with pending := false } hfire.2 rfl
  rw [hq]

/-- C2 witness: three sends then one drain on a concrete async watcher give
one invocation; three send-drain rounds give three. -/
theorem sendAsync_coalesces_witness :
    (drainAsync (fun _ => true)
      (sendAsyncK
        { nrThreads := 1,
          alive := [(0, { wtype := 1, loop := 0, task := some 4,
                          active := true })],
          nextId := 1 } 0 3) 0).2 = [⟨4, 0, EVENT_ASYNC⟩] ∧
    (sendDrainRounds (fun _ => true)
      { nrThreads := 1,
        alive := [(0, { wtype := 1, loop := 0, task := some 4,
                        active := true })],
        nextId := 1 } 0 3).2 = 3 :=
  ⟨(sendAsync_coalesces (fun _ => true)
      { nrThreads := 1,
        alive := [(0, { wtype := 1, loop := 0, task := some 4,
                        active := true })],
        nextId := 1 }
      0 { wtype := 1, loop := 0, task := some 4, active := true } 4 3
      rfl rfl rfl (by decide)).1,
   (sendAsync_coalesces (fun _ => true)
      { nrThreads := 1,
        alive := [(0, { wtype := 1, loop := 0, task := some 4,
                        active := true })],
        nextId := 1 }
      0 { wtype := 1, loop := 0, task := some 4, active := true } 4 3
      rfl rfl rfl (by decide)).2.2⟩

theorem timerPoll_inactive (isActive : TaskId → Bool) (s : Sched)
    (id : WatcherId) (rec : WatcherRec)
    (h : s.alive.lookup id = some rec) (hact : rec.active = false) :
    timerPoll isActive s id = (s, []) := by
  simp [timerPoll, h, hact]

/--
C3 (amended): `installTimerEvent` arms a single-shot timer (libev repeat
interval 0): once the loop's clock passes the timeout, the poll delivers
exactly one `EVENT_TIMER` to the bound task and the watcher goes dormant —
no further Timer events however far the clock advances.  `rearmTimer`,
however, is implemented with `ev_timer_set(w, 0., timeout)` +
`ev_timer_again`, which sets the libev *repeat* interval to the new
timeout: the re-armed watcher is reactivated, and on every expiry libev
re-arms it at `now + timeout` while it stays active — so a timer re-armed
with `rearmTimer` repeats automatically, contrary to the claim's
no-automatic-repeat property for re-armed timers.
-/
theorem timer_single_shot_but_rearm_repeats (isActive : TaskId → Bool)
    (s : Sched) (id : WatcherId) (rec : WatcherRec) (t : TaskId)
    (τ f : Nat) (h : s.alive.lookup id = some rec)
    (hw : rec.wtype = EVENT_TIMER) (hact : rec.active = true)
    (hrep : rec.timerRepeat = 0) (ht : rec.task = some t)
    (ha : isActive t = true) (hexp : rec.timerAt ≤ s.now) (hτ : τ ≠ 0) :
    (timerPoll isActive s id).2 = [⟨t, id, EVENT_TIMER⟩] ∧
    (timerPoll isActive s id).1.alive.lookup id =
      some { rec with active := false } ∧
    (timerPoll isActive
      (advanceClock (timerPoll isActive s id).1 f) id).2 = [] ∧
    ((rearmTimer (timerPoll isActive s id).1 (some id) τ).1.alive.lookup id =
      some { rec with active := true, timerRepeat := τ,
                      timerAt := s.now + τ }) ∧
    (∀ (s2 : Sched) (rec2 : WatcherRec),
      s2.alive.lookup id = some rec2 → rec2.wtype = EVENT_TIMER →
      rec2.active = true → rec2.timerRepeat = τ → rec2.task = some t →
      rec2.timerAt ≤ s2.now →
      (timerPoll isActive s2 id).2 = [⟨t, id, EVENT_TIMER⟩] ∧
      (timerPoll isActive s2 id).1.alive.lookup id =
        some { rec2 with timerAt := s2.now + τ }) := by
  have hbit : EV_TIMER &&& EV_TIMER ≠ 0 := by decide
  have hz : EV_TIMER ≠ 0 := by decide
  have hfire : timerPoll isActive s id =
      ({ s with alive := updateW s.alive id (fun r =>
          { r with active := false }) },
       [⟨t, id, EVENT_TIMER⟩]) := by
    simp [timerPoll, h, hw, hact, hrep, hexp, timerCallback, ht, ha, hbit,
      hz]
  have hdorm : (timerPoll isActive s id).1.alive.lookup id =
      some { rec with active := false } := by
    rw [hfire]
    simp [lookup_updateW_self, h]
  have hdorm2 : (advanceClock (timerPoll isActive s id).1 f).alive.lookup
      id = some { rec with active := false } := hdorm
  refine ⟨by rw [hfire], hdorm, ?_, ?_, ?_⟩
  · rw [timerPoll_inactive isActive _ id { rec with active := false }
      hdorm2 rfl]
  · have hderef : derefW (timerPoll isActive s id).1 id =
        some { rec with active := false } :=
      derefW_of_alive _ _ _ hdorm
    have hnow : (timerPoll isActive s id).1.now = s.now := by
      rw [hfire]
    simp only [rearmTimer, hderef]
    rw [if_pos hτ]
    simp [lookup_updateW_self, hdorm, hnow]
  · intro s2 rec2 h2 hw2 hact2 hrep2 ht2 hexp2
    have hrepne : rec2.timerRepeat ≠ 0 := by
      rw [hrep2]
      exact hτ
    constructor
    · simp [timerPoll, h2, hw2, hact2, hrepne, hexp2, timerCallback, ht2,
        ha, hbit, hz]
    · simp [timerPoll, h2, hw2, hact2, hrepne, hexp2, lookup_updateW_self,
        hrep2, hτ]

/--
C3 counterexample: a concrete timer installed with timeout 5 fires once at
clock 5 and goes dormant; after `rearmTimer(handle, 7)` it fires at clock
12 — and then, with no further re-arm, fires *again* at clock 19, because
`ev_timer_set(w, 0., 7)` + `ev_timer_again` left libev's repeat interval at
7.  This refutes "the same no-automatic-repeat property holds for a timer
that has been re-armed with rearmTimer".
-/
theorem rearmed_timer_fires_again :
    (timerPoll (fun _ => true)
      (advanceClock
        { nrThreads := 1,
          alive := [(0, { wtype := 32, loop := 0, task := some 2,
                          active := true, timerAt := 5 })],
          nextId := 1 } 5) 0).2 = [⟨2, 0, EVENT_TIMER⟩] ∧
    (timerPoll (fun _ => true)
      (advanceClock
        (rearmTimer
          (timerPoll (fun _ => true)
            (advanceClock
              { nrThreads := 1,
                alive := [(0, { wtype := 32, loop := 0, task := some 2,
                                active := true, timerAt := 5 })],
                nextId := 1 } 5) 0).1 (some 0) 7).1 7) 0).2 =
      [⟨2, 0, EVENT_TIMER⟩] ∧
    (timerPoll (fun _ => true)
      (advanceClock
        (timerPoll (fun _ => true)
          (advanceClock
            (rearmTimer
              (timerPoll (fun _ => true)
                (advanceClock
                  { nrThreads := 1,
                    alive := [(0, { wtype := 32, loop := 0, task := some 2,
                                    active := true, timerAt := 5 })],
                    nextId := 1 } 5) 0).1 (some 0) 7).1 7) 0).1 7) 0).2 =
      [⟨2, 0, EVENT_TIMER⟩] :=
  ⟨rfl, rfl, rfl⟩

/-- C3 witness: the amended theorem applied to a concrete expired
single-shot timer watcher, re-armed with timeout 7. -/
theorem timer_single_shot_but_rearm_repeats_witness :
    (timerPoll (fun _ => true)
      { nrThreads := 1,
        alive := [(0, { wtype := 32, loop := 0, task := some 2,
                        active := true, timerAt := 5 })],
        nextId := 1, now := 5 } 0).2 = [⟨2, 0, EVENT_TIMER⟩] :=
  (timer_single_shot_but_rearm_repeats (fun _ => true)
    { nrThreads := 1,
      alive := [(0, { wtype := 32, loop := 0, task := some 2,
                      active := true, timerAt := 5 })],
      nextId := 1, now := 5 }
    0 { wtype := 32, loop := 0, task := some 2, active := true,
        timerAt := 5 }
    2 7 9 rfl rfl rfl rfl rfl rfl (by decide) (by decide)).1

theorem sleepCountAux_le (running : Nat → Bool) :
    ∀ (fuel k : Nat), sleepCountAux running k fuel ≤ k + fuel := by
  intro fuel
  induction fuel with
  | zero =>
    intro k
    simp [sleepCountAux]
  | succ f ih =>
    intro k
    have hk := ih (k + 1)
    by_cases h : running k = true
    · simp only [sleepCountAux, h, if_true]
      omega
    · have h2 : running k = false := by
        simpa using h
      simp [sleepCountAux, h2]

theorem sleepCountAux_stuck (running : Nat → Bool)
    (hall : ∀ k, running k = true) :
    ∀ (fuel k : Nat), sleepCountAux running k fuel = k + fuel := by
  intro fuel
  induction fuel with
  | zero =>
    intro k
    simp [sleepCountAux]
  | succ f ih =>
    intro k
    have := ih (k + 1)
    simp only [sleepCountAux, hall k, if_true]
    omega

/--
C4: the pool destructor performs its steps in exactly the claimed order:
(1) `beginShutdown` on every thread; (2) `stop` on every thread followed by
the bounded wait — at most 100 sleep iterations, and exactly 100 when the
threads never report stopped, after which teardown proceeds anyway; (3) for
every loop other than loop 0, stop its waker then destroy its poll context;
(4) stop loop 0's waker then destroy the default poll context; (5) release
the thread and waker objects and the three bookkeeping buffers.
-/
theorem destructor_teardown_order (n : Nat) (running : Nat → Bool) :
    (∃ waits ≤ 100, destructorTrace n running =
      ((List.range n).map DtorAction.beginShutdown)
      ++ ((List.range n).map DtorAction.stopThread)
      ++ List.replicate waits DtorAction.usleep
      ++ ((List.range (n - 1)).flatMap (fun i =>
        [DtorAction.asyncStopWaker (i + 1), DtorAction.loopDestroy (i + 1)]))
      ++ [DtorAction.asyncStopWaker 0, DtorAction.defaultDestroy]
      ++ ((List.range n).flatMap (fun i =>
        [DtorAction.deleteThread i, DtorAction.deleteWaker i]))
      ++ [DtorAction.deleteLoopsBuffer, DtorAction.deleteThreadsBuffer,
          DtorAction.deleteWakersBuffer]) ∧
    ((∀ k, running k = true) → sleepCount running = 100) := by
  refine ⟨⟨sleepCount running, ?_, rfl⟩, fun hall => ?_⟩
  · have := sleepCountAux_le running 100 0
    simpa [sleepCount] using this
  · have := sleepCountAux_stuck running hall 100 0
    simpa [sleepCount] using this

/-- C4 witness: the teardown-order theorem applied to a pool of two loops
whose threads never report stopped — the wait budget is exhausted at 100
iterations and teardown still proceeds. -/
theorem destructor_teardown_order_witness :
    (∀ k : Nat, (fun _ : Nat => true) k = true) →
      sleepCount (fun _ => true) = 100 :=
  (destructor_teardown_order 2 (fun _ => true)).2

/-- The scheduler's operations, for stating whole-history invariants. -/
inductive SchedOp where
  | installAsync (loop : Nat) (task : Option TaskId)
  | installSocket (loop etype : Nat) (task : Option TaskId) (fd : Nat)
  | installPeriodic (loop : Nat) (task : Option TaskId) (off itv : Nat)
  | installSignal (loop : Nat) (task : Option TaskId) (sig : Nat)
  | installTimer (loop : Nat) (task : Option TaskId) (timeout : Nat)
  | uninstall (tok : Option WatcherId)
  | send (tok : Option WatcherId)
  | startSock (tok : Option WatcherId)
  | stopSock (tok : Option WatcherId)
  | rearmPer (tok : Option WatcherId) (off itv : Nat)
  | rearmTim (tok : Option WatcherId) (timeout : Nat)
  | clearTim (tok : Option WatcherId)
  | drain (id : WatcherId)
  | pollTimer (id : WatcherId)
  | advance (d : Nat)
  | wakeup (loop : Nat)
  deriving Repr, DecidableEq

/-- Apply one operation to the scheduler state (failed installs and
wakeups of invalid loops leave the state unchanged). -/
def applyOp (isActive : TaskId → Bool) (s : Sched) : SchedOp → Sched
  | .installAsync l t =>
    match installAsyncEvent s l t with
    | .ok r => r.2.1
    | .error _ => s
  | .installSocket l etype t fd =>
    match installSocketEvent s l etype t fd with
    | .ok r => r.2.1
    | .error _ => s
  | .installPeriodic l t off itv =>
    match installPeriodicEvent s l t off itv with
    | .ok r => r.2.1
    | .error _ => s
  | .installSignal l t sig =>
    match installSignalEvent s l t sig with
    | .ok r => r.2.1
    | .error _ => s
  | .installTimer l t τ =>
    match installTimerEvent s l t τ with
    | .ok r => r.2.1
    | .error _ => s
  | .uninstall tok => (uninstallEvent s tok).1
  | .send tok => (sendAsync s tok).1
  | .startSock tok => (startSocketEvents s tok).1
  | .stopSock tok => (stopSocketEvents s tok).1
  | .rearmPer tok off itv => (rearmPeriodic s tok off itv).1
  | .rearmTim tok τ => (rearmTimer s tok τ).1
  | .clearTim tok => (clearTimer s tok).1
  | .drain id => (drainAsync isActive s id).1
  | .pollTimer id => (timerPoll isActive s id).1
  | .advance d => advanceClock s d
  | .wakeup l =>
    match wakeupLoop s l with
    | .ok r => r.1
    | .error _ => s

/-- Run a sequence of operations from a state. -/
def runOps (isActive : TaskId → Bool) (s : Sched) (ops : List SchedOp) :
    Sched :=
  ops.foldl (applyOp isActive) s

/-- A kind tag actually produced by one of the five watcher constructors. -/
def TagOk (t : Nat) : Prop :=
  t = EVENT_ASYNC ∨ t = EVENT_SOCKET_READ ∨ t = EVENT_PERIODIC ∨
  t = EVENT_SIGNAL ∨ t = EVENT_TIMER

/-- Every watcher the scheduler has ever allocated — live or freed —
carries a constructor kind tag. -/
def TagsOk (s : Sched) : Prop :=
  (∀ p ∈ s.alive, TagOk p.2.wtype) ∧ (∀ p ∈ s.graveyard, TagOk p.2.wtype)

theorem tags_updateW (l : List (WatcherId × WatcherRec)) (id : WatcherId)
    (f : WatcherRec → WatcherRec) (hf : ∀ r, (f r).wtype = r.wtype)
    (hl : ∀ p ∈ l, TagOk p.2.wtype) :
    ∀ p ∈ updateW l id f, TagOk p.2.wtype := by
  intro p hp
  rcases List.mem_map.1 hp with ⟨q, hq, rfl⟩
  cases hc : (q.1 == id) with
  | true =>
    simp only [hc, cond_true]
    rw [hf]
    exact hl q hq
  | false =>
    simp only [hc, cond_false]
    exact hl q hq

theorem tags_removeW (l : List (WatcherId × WatcherRec)) (id : WatcherId)
    (hl : ∀ p ∈ l, TagOk p.2.wtype) :
    ∀ p ∈ removeW l id, TagOk p.2.wtype := by
  intro p hp
  exact hl p (List.mem_filter.1 hp).1

theorem tagsOk_applyOp (isActive : TaskId → Bool) (s : Sched) (op : SchedOp)
    (h : TagsOk s) : TagsOk (applyOp isActive s op) := by
  obtain ⟨ha, hg⟩ := h
  cases op with
  | installAsync l t =>
    by_cases hl : s.nrThreads ≤ l
    · simpa [applyOp, installAsyncEvent, lookupLoop, hl] using ⟨ha, hg⟩
    · refine ⟨?_, by
        simpa [applyOp, installAsyncEvent, lookupLoop, hl, allocW] using hg⟩
      simp only [applyOp, installAsyncEvent, lookupLoop, hl, allocW]
      intro p hp
      simp only [ge_iff_le, if_neg hl, Except.bind, bind, pure,
        Except.pure] at hp
      rcases List.mem_cons.1 hp with rfl | hp
      · exact Or.inl rfl
      · exact ha p hp
  | installSocket l etype t fd =>
    by_cases hl : s.nrThreads ≤ l
    · simpa [applyOp, installSocketEvent, lookupLoop, hl] using ⟨ha, hg⟩
    · refine ⟨?_, by
        simpa [applyOp, installSocketEvent, lookupLoop, hl, allocW] using hg⟩
      simp only [applyOp, installSocketEvent, lookupLoop, hl, allocW]
      intro p hp
      simp only [ge_iff_le, if_neg hl, Except.bind, bind, pure,
        Except.pure] at hp
      rcases List.mem_cons.1 hp with rfl | hp
      · exact Or.inr (Or.inl rfl)
      · exact ha p hp
  | installPeriodic l t off itv =>
    by_cases hl : s.nrThreads ≤ l
    · simpa [applyOp, installPeriodicEvent, lookupLoop, hl] using ⟨ha, hg⟩
    · refine ⟨?_, by
        simpa [applyOp, installPeriodicEvent, lookupLoop, hl, allocW]
          using hg⟩
      simp only [applyOp, installPeriodicEvent, lookupLoop, hl, allocW]
      intro p hp
      simp only [ge_iff_le, if_neg hl, Except.bind, bind, pure,
        Except.pure] at hp
      rcases List.mem_cons.1 hp with rfl | hp
      · exact Or.inr (Or.inr (Or.inl rfl))
      · exact ha p hp
  | installSignal l t sig =>
    by_cases hl : s.nrThreads ≤ l
    · simpa [applyOp, installSignalEvent, lookupLoop, hl] using ⟨ha, hg⟩
    · refine ⟨?_, by
        simpa [applyOp, installSignalEvent, lookupLoop, hl, allocW] using hg⟩
      simp only [applyOp, installSignalEvent, lookupLoop, hl, allocW]
      intro p hp
      simp only [ge_iff_le, if_neg hl, Except.bind, bind, pure,
        Except.pure] at hp
      rcases List.mem_cons.1 hp with rfl | hp
      · exact Or.inr (Or.inr (Or.inr (Or.inl rfl)))
      · exact ha p hp
  | installTimer l t τ =>
    by_cases hl : s.nrThreads ≤ l
    · simpa [applyOp, installTimerEvent, lookupLoop, hl] using ⟨ha, hg⟩
    · refine ⟨?_, by
        simpa [applyOp, installTimerEvent, lookupLoop, hl, allocW] using hg⟩
      simp only [applyOp, installTimerEvent, lookupLoop, hl, allocW]
      intro p hp
      simp only [ge_iff_le, if_neg hl, Except.bind, bind, pure,
        Except.pure] at hp
      rcases List.mem_cons.1 hp with rfl | hp
      · exact Or.inr (Or.inr (Or.inr (Or.inr rfl)))
      · exact ha p hp
  | uninstall tok =>
    match tok with
    | none => exact ⟨ha, hg⟩
    | some id =>
      cases hd : derefW s id with
      | none => simpa [applyOp, uninstallEvent, hd] using ⟨ha, hg⟩
      | some rec =>
        by_cases hk : rec.wtype = EVENT_ASYNC ∨ rec.wtype = EVENT_PERIODIC ∨
            rec.wtype = EVENT_SIGNAL ∨ rec.wtype = EVENT_SOCKET_READ ∨
            rec.wtype = EVENT_TIMER
        · have htag : TagOk rec.wtype := by
            rcases hk with hk | hk | hk | hk | hk
            · exact Or.inl hk
            · exact Or.inr (Or.inr (Or.inl hk))
            · exact Or.inr (Or.inr (Or.inr (Or.inl hk)))
            · exact Or.inr (Or.inl hk)
            · exact Or.inr (Or.inr (Or.inr (Or.inr hk)))
          refine ⟨?_, ?_⟩
          · simp only [applyOp, uninstallEvent, hd, if_pos hk]
            exact tags_removeW s.alive id ha
          · simp only [applyOp, uninstallEvent, hd, if_pos hk]
            intro p hp
            rcases List.mem_cons.1 hp with rfl | hp
            · exact htag
            · exact tags_removeW s.graveyard id hg p hp
        · simpa [applyOp, uninstallEvent, hd, if_neg hk] using ⟨ha, hg⟩
  | send tok =>
    match tok with
    | none => exact ⟨ha, hg⟩
    | some id =>
      cases hd : derefW s id with
      | none => simpa [applyOp, sendAsync, hd] using ⟨ha, hg⟩
      | some rec =>
        refine ⟨?_, by simpa [applyOp, sendAsync, hd] using hg⟩
        simp only [applyOp, sendAsync, hd]
        exact tags_updateW s.alive id _ (fun r => rfl) ha
  | startSock tok =>
    match tok with
    | none => exact ⟨ha, hg⟩
    | some id =>
      cases hd : derefW s id with
      | none => simpa [applyOp, startSocketEvents, hd] using ⟨ha, hg⟩
      | some rec =>
        by_cases hact : rec.active = true
        · simpa [applyOp, startSocketEvents, hd, hact] using ⟨ha, hg⟩
        · refine ⟨?_, by simpa [applyOp, startSocketEvents, hd, hact]
            using hg⟩
          simp only [applyOp, startSocketEvents, hd, if_neg hact]
          exact tags_updateW s.alive id _ (fun r => rfl) ha
  | stopSock tok =>
    match tok with
    | none => exact ⟨ha, hg⟩
    | some id =>
      cases hd : derefW s id with
      | none => simpa [applyOp, stopSocketEvents, hd] using ⟨ha, hg⟩
      | some rec =>
        by_cases hact : rec.active = true
        · refine ⟨?_, by simpa [applyOp, stopSocketEvents, hd, hact]
            using hg⟩
          simp only [applyOp, stopSocketEvents, hd, if_pos hact]
          exact tags_updateW s.alive id _ (fun r => rfl) ha
        · simpa [applyOp, stopSocketEvents, hd, hact] using ⟨ha, hg⟩
  | rearmPer tok off itv =>
    match tok with
    | none => exact ⟨ha, hg⟩
    | some id =>
      cases hd : derefW s id with
      | none => simpa [applyOp, rearmPeriodic, hd] using ⟨ha, hg⟩
      | some rec =>
        refine ⟨?_, by simpa [applyOp, rearmPeriodic, hd] using hg⟩
        simp only [applyOp, rearmPeriodic, hd]
        exact tags_updateW s.alive id _ (fun r => rfl) ha
  | rearmTim tok τ =>
    match tok with
    | none => exact ⟨ha, hg⟩
    | some id =>
      cases hd : derefW s id with
      | none => simpa [applyOp, rearmTimer, hd] using ⟨ha, hg⟩
      | some rec =>
        by_cases hτ : τ ≠ 0
        · refine ⟨?_, by simpa [applyOp, rearmTimer, hd, hτ] using hg⟩
          simp only [applyOp, rearmTimer, hd, if_pos hτ]
          exact tags_updateW s.alive id _ (fun r => rfl) ha
        · by_cases hact : rec.active = true
          · refine ⟨?_, by simpa [applyOp, rearmTimer, hd, hτ, hact]
              using hg⟩
            simp only [applyOp, rearmTimer, hd, if_neg hτ, if_pos hact]
            exact tags_updateW s.alive id _ (fun r => rfl) ha
          · simpa [applyOp, rearmTimer, hd, hτ, hact] using ⟨ha, hg⟩
  | clearTim tok =>
    match tok with
    | none => exact ⟨ha, hg⟩
    | some id =>
      cases hd : derefW s id with
      | none => simpa [applyOp, clearTimer, hd] using ⟨ha, hg⟩
      | some rec =>
        refine ⟨?_, by simpa [applyOp, clearTimer, hd] using hg⟩
        simp only [applyOp, clearTimer, hd]
        exact tags_updateW s.alive id _ (fun r => rfl) ha
  | drain id =>
    cases hd : s.alive.lookup id with
    | none => simpa [applyOp, drainAsync, hd] using ⟨ha, hg⟩
    | some rec =>
      by_cases hp : rec.pending = true
      · refine ⟨?_, by simpa [applyOp, drainAsync, hd, hp] using hg⟩
        simp only [applyOp, drainAsync, hd, if_pos hp]
        exact tags_updateW s.alive id _ (fun r => rfl) ha
      · simpa [applyOp, drainAsync, hd, hp] using ⟨ha, hg⟩
  | pollTimer id =>
    cases hd : s.alive.lookup id with
    | none => simpa [applyOp, timerPoll, hd] using ⟨ha, hg⟩
    | some rec =>
      by_cases hc : rec.wtype = EVENT_TIMER ∧ rec.active = true ∧
          rec.timerAt ≤ s.now
      · by_cases hr : rec.timerRepeat ≠ 0
        · refine ⟨?_, by simpa [applyOp, timerPoll, hd, hc, hr] using hg⟩
          simp only [applyOp, timerPoll, hd, if_pos hc, if_pos hr]
          exact tags_updateW s.alive id _ (fun r => rfl) ha
        · refine ⟨?_, by simpa [applyOp, timerPoll, hd, hc, hr] using hg⟩
          simp only [applyOp, timerPoll, hd, if_pos hc, if_neg hr]
          exact tags_updateW s.alive id _ (fun r => rfl) ha
      · simpa [applyOp, timerPoll, hd, hc] using ⟨ha, hg⟩
  | advance d => exact ⟨ha, hg⟩
  | wakeup l =>
    by_cases hl : s.nrThreads ≤ l
    · simpa [applyOp, wakeupLoop, hl] using ⟨ha, hg⟩
    · simpa [applyOp, wakeupLoop, hl] using ⟨ha, hg⟩

theorem tagsOk_runOps (isActive : TaskId → Bool) (ops : List SchedOp) :
    ∀ (s : Sched), TagsOk s → TagsOk (runOps isActive s ops) := by
  induction ops with
  | nil => intro s h; exact h
  | cons op ops ih =>
    intro s h
    exact ih (applyOp isActive s op) (tagsOk_applyOp isActive s op h)

/--
C10: every socket watcher carries the kind tag `EVENT_SOCKET_READ`
regardless of the interest mask it was installed with — including a
watcher installed with write-only interest, whose libev flags are
`EV_WRITE` only while its tag is still `EVENT_SOCKET_READ`; across any
operation history from a fresh pool no watcher (live or freed) ever
carries the tag `EVENT_SOCKET_WRITE`, since no constructor produces it and
no operation rewrites a tag; consequently `uninstallEvent` deregisters
every socket watcher through its single `EVENT_SOCKET_READ` switch case
(`ev_io_stop` + `delete`).
-/
theorem socket_watchers_always_tagged_read (n : Nat)
    (isActive : TaskId → Bool) (ops : List SchedOp) (s : Sched)
    (l fd : Nat) (task : Option TaskId) (id : WatcherId)
    (rec : WatcherRec) (h1 : s.alive.lookup id = some rec)
    (h2 : rec.wtype = EVENT_SOCKET_READ) :
    (installSocketEvent s l EVENT_SOCKET_WRITE task fd =
      if s.nrThreads ≤ l then .error "unknown loop"
      else .ok (s.nextId,
        { s with
          alive := (s.nextId,
                    { wtype := EVENT_SOCKET_READ, loop := l, task := task,
                      active := true, ioFlags := EV_WRITE,
                      fd := fd }) :: s.alive,
          nextId := s.nextId + 1 },
        [.ioStart l s.nextId])) ∧
    (∀ p ∈ (runOps isActive { nrThreads := n } ops).alive,
      TagOk p.2.wtype ∧ p.2.wtype ≠ EVENT_SOCKET_WRITE) ∧
    (∀ p ∈ (runOps isActive { nrThreads := n } ops).graveyard,
      TagOk p.2.wtype ∧ p.2.wtype ≠ EVENT_SOCKET_WRITE) ∧
    (uninstallEvent s (some id)).2 = [.ioStop rec.loop id, .free id] := by
  have hne : ∀ t : Nat, TagOk t → t ≠ EVENT_SOCKET_WRITE := by
    intro t ht
    rcases ht with rfl | rfl | rfl | rfl | rfl <;> decide
  have hTags : TagsOk (runOps isActive { nrThreads := n } ops) :=
    tagsOk_runOps isActive ops { nrThreads := n }
      ⟨by simp, by simp⟩
  have hflags : ((if EVENT_SOCKET_WRITE &&& EVENT_SOCKET_READ ≠ 0
      then EV_READ else 0) |||
      (if EVENT_SOCKET_WRITE &&& EVENT_SOCKET_WRITE ≠ 0
      then EV_WRITE else 0)) = EV_WRITE := by decide
  refine ⟨?_, ?_, ?_, ?_⟩
  · by_cases hl : s.nrThreads ≤ l
    · simp [installSocketEvent, lookupLoop, hl]
    · simp only [installSocketEvent, lookupLoop, ge_iff_le, if_neg hl,
        allocW, Except.bind, bind, pure, Except.pure]
      rw [hflags]
  · intro p hp
    exact ⟨hTags.1 p hp, hne _ (hTags.1 p hp)⟩
  · intro p hp
    exact ⟨hTags.2 p hp, hne _ (hTags.2 p hp)⟩
  · have hd : derefW s id = some rec := derefW_of_alive s id rec h1
    have hk : rec.wtype = EVENT_ASYNC ∨ rec.wtype = EVENT_PERIODIC ∨
        rec.wtype = EVENT_SIGNAL ∨ rec.wtype = EVENT_SOCKET_READ ∨
        rec.wtype = EVENT_TIMER := Or.inr (Or.inr (Or.inr (Or.inl h2)))
    simp only [uninstallEvent, hd, if_pos hk]
    rw [h2]
    simp [stopCallFor, EVENT_ASYNC, EVENT_PERIODIC, EVENT_SIGNAL,
      EVENT_SOCKET_READ, EVENT_TIMER]

/-- C10 witness: a write-only socket install on a concrete pool yields a
watcher tagged `EVENT_SOCKET_READ` with `EV_WRITE`-only flags, and
uninstalling a concrete socket watcher emits `ev_io_stop` then the free. -/
theorem socket_watchers_always_tagged_read_witness :
    (installSocketEvent
      { nrThreads := 1,
        alive := [(0, { wtype := 2, loop := 0, task := some 1,
                        active := true, ioFlags := 2, fd := 3 })],
        nextId := 1 } 0 EVENT_SOCKET_WRITE (some 1) 3 =
      if (1 : Nat) ≤ 0 then .error "unknown loop"
      else .ok (1,
        { nrThreads := 1,
          alive := [(1, { wtype := EVENT_SOCKET_READ, loop := 0,
                          task := some 1, active := true,
                          ioFlags := EV_WRITE, fd := 3 }),
                    (0, { wtype := 2, loop := 0, task := some 1,
                          active := true, ioFlags := 2, fd := 3 })],
          nextId := 2 },
        [.ioStart 0 1])) ∧
    (uninstallEvent
      { nrThreads := 1,
        alive := [(0, { wtype := 2, loop := 0, task := some 1,
                        active := true, ioFlags := 2, fd := 3 })],
        nextId := 1 } (some 0)).2 = [.ioStop 0 0, .free 0] :=
  ⟨(socket_watchers_always_tagged_read 1 (fun _ => true) []
      { nrThreads := 1,
        alive := [(0, { wtype := 2, loop := 0, task := some 1,
                        active := true, ioFlags := 2, fd := 3 })],
        nextId := 1 }
      0 3 (some 1) 0
      { wtype := 2, loop := 0, task := some 1, active := true, ioFlags := 2,
        fd := 3 }
      rfl rfl).1,
   (socket_watchers_always_tagged_read 1 (fun _ => true) []
      { nrThreads := 1,
        alive := [(0, { wtype := 2, loop := 0, task := some 1,
                        active := true, ioFlags := 2, fd := 3 })],
        nextId := 1 }
      0 3 (some 1) 0
      { wtype := 2, loop := 0, task := some 1, active := true, ioFlags := 2,
        fd := 3 }
      rfl rfl).2.2.2⟩
